import Mathlib

/-!
Shallow embedding of the scuba configuration-resolution engine
(`src/scuba/config.py` and `src/scuba/scuba.py`) together with theorems
settling the frozen claims about it.

Conventions of the embedding:
* YAML data is represented by `YamlValue` (scalars, sequences, mappings with
  string keys); the pre-resolution parse tree, which may still contain
  `!from_yaml` inclusion directives, is `RawNode`.
* Python exceptions become `Except` values.  `ScubaErr.configError` models
  `ConfigError`; `ScubaErr.pyError` models an uncaught Python exception
  (`TypeError`, `IndexError`, `AttributeError`).  For the loader,
  `LoadErr.yamlError` models `yaml.YAMLError` (the spec's `ReferenceError`
  taxonomy slot), `LoadErr.ioError` a failed `open`, `LoadErr.pyError` an
  uncaught exception and `LoadErr.recursionError` the Python recursion limit
  (reached on cyclic inclusion); recursion is bounded by explicit fuel.
* Python truthiness (`if not doc`, `if alias.image`, ...) is modelled by
  `pyTruthy`.
* In-place mutation of the caller's command list by
  `ScubaContext.process_command` is modelled by returning the final state of
  that list alongside the result.
-/

namespace Scuba

/-! ### YAML values -/

inductive YamlValue where
  | null
  | bool (b : Bool)
  | int (n : Int)
  | str (s : String)
  | seq (items : List YamlValue)
  | map (entries : List (String × YamlValue))
deriving Repr

/-- Python dict lookup (`d.get(k)` / `d[k]`) on an association list. -/
def alookup {α : Type} (k : String) : List (String × α) → Option α
  | [] => none
  | (k', v) :: rest => if k' = k then some v else alookup k rest

/-- Python dict assignment `d[k] = v`: overwrite in place, else append
(insertion order preserved, as for Python dicts). -/
def dictSet {α : Type} (d : List (String × α)) (k : String) (v : α) :
    List (String × α) :=
  if (alookup k d).isSome then
    d.map (fun kv => if kv.1 = k then (k, v) else kv)
  else
    d ++ [(k, v)]

/-- Python `dict.update`: apply every assignment of `upd` to `base`. -/
def dictUpdate {α : Type} (base upd : List (String × α)) : List (String × α) :=
  upd.foldl (fun acc kv => dictSet acc kv.1 kv.2) base

/-- Python truthiness of a YAML-derived value: `None`, `False`, `0`, `''`,
`[]` and the empty dict are falsy, everything else truthy. -/
def pyTruthy : YamlValue → Bool
  | .null => false
  | .bool b => b
  | .int n => n != 0
  | .str s => !s.data.isEmpty
  | .seq l => !l.isEmpty
  | .map l => !l.isEmpty

/-- Truthiness of an optional value (`None` for `none`). -/
def optTruthy : Option YamlValue → Bool
  | none => false
  | some v => pyTruthy v

/-- Python `type(v).__name__` for the values a YAML document can hold. -/
def pyTypeName : YamlValue → String
  | .null => "NoneType"
  | .bool _ => "bool"
  | .int _ => "int"
  | .str _ => "str"
  | .seq _ => "list"
  | .map _ => "dict"

/-- Python `str.join` / `'sep'.join(parts)`. -/
def joinSep (sep : String) : List String → String
  | [] => ""
  | [x] => x
  | x :: rest => x ++ sep ++ joinSep sep rest

mutual
/-- Python `repr` of a YAML-derived value (used by `str` on containers).
String escaping inside `repr` is approximated by plain quoting; no claim
evaluates it. -/
def pyRepr : YamlValue → String
  | .null => "None"
  | .bool b => cond b "True" "False"
  | .int n => toString n
  | .str s => "\x27" ++ s ++ "\x27"
  | .seq l => "[" ++ joinSep ", " (pyReprList l) ++ "]"
  | .map es => "\x7b" ++ joinSep ", " (pyReprMap es) ++ "\x7d"
termination_by structural v => v

def pyReprList : List YamlValue → List String
  | [] => []
  | v :: rest => pyRepr v :: pyReprList rest
termination_by structural l => l

def pyReprMap : List (String × YamlValue) → List String
  | [] => []
  | (k, v) :: rest => ("\x27" ++ k ++ "\x27: " ++ pyRepr v) :: pyReprMap rest
termination_by structural l => l
end

/-- Python `str(v)` for a YAML-derived value. -/
def pyStr : YamlValue → String
  | .null => "None"
  | .bool b => cond b "True" "False"
  | .int n => toString n
  | .str s => s
  | .seq l => pyRepr (.seq l)
  | .map es => pyRepr (.map es)

/-! ### Errors -/

/-- Errors raised by the config model and context resolver.
`configError` is `config.ConfigError`; `pyError` is an uncaught Python
exception (`TypeError`, `IndexError`, `AttributeError`). -/
inductive ScubaErr where
  | configError (msg : String)
  | pyError (msg : String)
deriving Repr

/-- Errors raised during document loading.  `yamlError` is `yaml.YAMLError`
(raised by the `!from_yaml` constructor for a malformed directive or a
missing key); `ioError` a failed `open`; `pyError` an uncaught Python
exception; `recursionError` stands for Python's recursion limit, reached on
cyclic inclusion (modelled by fuel exhaustion). -/
inductive LoadErr where
  | yamlError (msg : String)
  | ioError (path : String)
  | pyError (msg : String)
  | recursionError
deriving Repr

/-! ### Path helpers (`os.path`) -/

/-- Longest prefix of the character list ending at its last `'/'`,
or `none` when there is no slash. -/
def dirnameAux : List Char → Option (List Char)
  | [] => none
  | c :: rest =>
    match dirnameAux rest with
    | some tail => some (c :: tail)
    | none => if c = '/' then some [c] else none

/-- Remove trailing slashes. -/
def dropTrailingSlashes (cs : List Char) : List Char :=
  (cs.reverse.dropWhile (· = '/')).reverse

/-- Python `os.path.split(p)[0]`: everything before the last `'/'`, with
trailing slashes stripped unless the head consists only of slashes. -/
def dirname (p : String) : String :=
  match dirnameAux p.data with
  | none => ""
  | some head =>
    if head.all (· = '/') then String.mk head
    else String.mk (dropTrailingSlashes head)

/-- Whether the path is absolute (starts with `'/'`). -/
def isAbsPath (p : String) : Bool :=
  match p.data with
  | '/' :: _ => true
  | _ => false

/-- Whether the path ends with `'/'`. -/
def endsWithSlash (p : String) : Bool :=
  match p.data.getLast? with
  | some '/' => true
  | _ => false

/-- Python `os.path.join(a, b)` for two components. -/
def pathJoin (a b : String) : String :=
  if isAbsPath b then b
  else if a = "" then b
  else if endsWithSlash a then a ++ b
  else a ++ "/" ++ b

/-! ### Key-path splitting and descent (`Loader.from_yaml`, lines 58-66) -/

/-- Scanner for `re.split(r'(?<!\\)\.', key)`: split on `'.'` characters
whose immediately preceding character is not a backslash. -/
def splitKeyPathAux : List Char → Option Char → List Char → List String
  | [], _, acc => [String.mk acc.reverse]
  | c :: rest, prev, acc =>
    if c = '.' ∧ prev ≠ some '\\' then
      String.mk acc.reverse :: splitKeyPathAux rest (some c) []
    else
      splitKeyPathAux rest (some c) (c :: acc)

/-- `re.split(r'(?<!\\)\.', key)`. -/
def splitKeyPath (s : String) : List String :=
  splitKeyPathAux s.data none []

/-- Python `k.replace('\\.', '.')`: replace every backslash-dot pair by a
dot, scanning left to right. -/
def replaceEscapedDots : List Char → List Char
  | '\\' :: '.' :: rest => '.' :: replaceEscapedDots rest
  | c :: rest => c :: replaceEscapedDots rest
  | [] => []

/-- `k.replace('\\.', '.')` on a string. -/
def unescapeDots (s : String) : String :=
  String.mk (replaceEscapedDots s.data)

/-- Outcome of `cur = cur[k]` going wrong: `keyError` when `cur` is a
mapping without the key (caught by the `except KeyError`); `typeError` when
`cur` is not a mapping and cannot be subscripted by a string key
(uncaught). -/
inductive DescErr where
  | keyError
  | typeError
deriving Repr

/-- The retrieval loop of `Loader.from_yaml`:
`for k in segments: cur = cur[k.replace('\\.', '.')]`. -/
def descend : YamlValue → List String → Except DescErr YamlValue
  | cur, [] => .ok cur
  | cur, k :: rest =>
    match cur with
    | .map es =>
      match alookup (unescapeDots k) es with
      | some v => descend v rest
      | none => .error .keyError
    | _ => .error .typeError

/-! ### The reference-resolving loader (`Loader`, `config.py` lines 16-68) -/

/-- Pre-resolution parse tree: a YAML document as produced by the syntax
parser, in which a `!from_yaml`-tagged scalar is represented by its
shell-lexed argument list (the `shlex.split` of the scalar's text, an
external lexer, is taken as given). -/
inductive RawNode where
  | null
  | bool (b : Bool)
  | int (n : Int)
  | str (s : String)
  | seq (items : List RawNode)
  | map (entries : List (String × RawNode))
  | fromYaml (parts : List String)
deriving Repr

mutual
/-- Construct one node of a document, resolving `!from_yaml` directives.
`load` loads and fully parses a nested document (a fresh loader with a
fresh cache, as `yaml.load(f, self.__class__)` does); `root` is the
directory of the current document (`self._root`); `cache` is this loader's
`self._cache`.  Returns the value, the updated cache, and the list of file
paths opened, in order. -/
def resolveNodeF (load : String → Except LoadErr (YamlValue × List String))
    (root : String) (cache : List (String × YamlValue)) :
    RawNode → Except LoadErr (YamlValue × List (String × YamlValue) × List String)
  | .null => .ok (.null, cache, [])
  | .bool b => .ok (.bool b, cache, [])
  | .int n => .ok (.int n, cache, [])
  | .str s => .ok (.str s, cache, [])
  | .seq items =>
    match resolveSeqF load root cache items with
    | .error e => .error e
    | .ok (vs, c, lg) => .ok (.seq vs, c, lg)
  | .map es =>
    match resolveMapF load root cache es with
    | .error e => .error e
    | .ok (vs, c, lg) => .ok (.map vs, c, lg)
  | .fromYaml parts =>
    match parts with
    | [filename, key] =>
      let path := pathJoin root filename
      let fetch : Except LoadErr (YamlValue × List (String × YamlValue) × List String) :=
        match alookup path cache with
        | some v =>
          if pyTruthy v then .ok (v, cache, [])
          else
            match load path with
            | .error e => .error e
            | .ok (doc, lg) => .ok (doc, dictSet cache path doc, lg)
        | none =>
          match load path with
          | .error e => .error e
          | .ok (doc, lg) => .ok (doc, dictSet cache path doc, lg)
      match fetch with
      | .error e => .error e
      | .ok (doc, c1, lg) =>
        match descend doc (splitKeyPath key) with
        | .ok v => .ok (v, c1, lg)
        | .error .keyError =>
          .error (.yamlError ("Key \"" ++ key ++ "\" not found in " ++ filename))
        | .error .typeError =>
          .error (.pyError "TypeError: value is not subscriptable by a string key")
    | _ => .error (.yamlError "Two arguments expected to !from_yaml")
termination_by structural n => n

/-- Resolve the items of a sequence in document order, threading the cache
and accumulating the read log. -/
def resolveSeqF (load : String → Except LoadErr (YamlValue × List String))
    (root : String) (cache : List (String × YamlValue)) :
    List RawNode → Except LoadErr (List YamlValue × List (String × YamlValue) × List String)
  | [] => .ok ([], cache, [])
  | n :: rest =>
    match resolveNodeF load root cache n with
    | .error e => .error e
    | .ok (v, c1, lg1) =>
      match resolveSeqF load root c1 rest with
      | .error e => .error e
      | .ok (vs, c2, lg2) => .ok (v :: vs, c2, lg1 ++ lg2)
termination_by structural l => l

/-- Resolve the values of a mapping in document order, threading the cache
and accumulating the read log. -/
def resolveMapF (load : String → Except LoadErr (YamlValue × List String))
    (root : String) (cache : List (String × YamlValue)) :
    List (String × RawNode) →
      Except LoadErr (List (String × YamlValue) × List (String × YamlValue) × List String)
  | [] => .ok ([], cache, [])
  | (k, n) :: rest =>
    match resolveNodeF load root cache n with
    | .error e => .error e
    | .ok (v, c1, lg1) =>
      match resolveMapF load root c1 rest with
      | .error e => .error e
      | .ok (vs, c2, lg2) => .ok ((k, v) :: vs, c2, lg1 ++ lg2)
termination_by structural l => l
end

/-- Open and fully parse one document: `yaml.load(f, Loader)`.  The file
system is an association list from path to parse tree.  A fresh loader is
created per document: `self._root` is the directory of `path` and
`self._cache` starts empty.  Fuel bounds inclusion depth (Python's
recursion limit).  Returns the document value and the list of file paths
opened, starting with `path` itself. -/
def loadDoc (fs : List (String × RawNode)) :
    Nat → String → Except LoadErr (YamlValue × List String)
  | 0, _ => .error .recursionError
  | fuel + 1, path =>
    match alookup path fs with
    | none => .error (.ioError path)
    | some raw =>
      match resolveNodeF (loadDoc fs fuel) (dirname path) [] raw with
      | .error e => .error e
      | .ok (v, _, lg) => .ok (v, path :: lg)

/-! ### Constants and helpers from modules outside `src/`
(`scuba/constants.py` and `scuba/utils.py` are referenced by the sources
but absent from the repository snapshot; they are modelled from the spec.) -/

/-- Modelled from the spec: the fixed, well-known anchor-file name
(`SCUBA_YML` from the missing `constants` module). -/
def SCUBA_YML : String := ".scuba.yml"

/-- Modelled from the spec: the fixed default shell name (`DEFAULT_SHELL`
from the missing `constants` module). -/
def DEFAULT_SHELL : String := "/bin/sh"

/-- Characters that need no shell quoting (the ASCII word characters plus
`@ % + = : , . / -` and related, as in Python's `shlex.quote`). -/
def shellSafeChar (c : Char) : Bool :=
  ('a' ≤ c ∧ c ≤ 'z') ∨ ('A' ≤ c ∧ c ≤ 'Z') ∨ ('0' ≤ c ∧ c ≤ '9') ∨
    c ∈ ['_', '@', '%', '+', '=', ':', ',', '.', '/', '-']

/-- Modelled from the spec: shell-quote one token so that it round-trips
through a shell unambiguously (`shlex.quote`, used by the missing `utils`
module): the empty string and any token with unsafe characters are wrapped
in single quotes, with embedded single quotes rendered as a
quote-close/double-quoted-quote/quote-open sequence. -/
def shellQuote (s : String) : String :=
  if s = "" then "\x27\x27"
  else if s.data.all shellSafeChar then s
  else "\x27" ++ String.mk (s.data.flatMap
    (fun c => if c = Char.ofNat 39 then "\x27\"\x27\"\x27".data else [c])) ++ "\x27"

/-- Modelled from the spec: `shell_quote_cmd` from the missing `utils`
module — the shell-quoted, space-joined form of a token list. -/
def shell_quote_cmd (cmd : List String) : String :=
  joinSep " " (cmd.map shellQuote)

mutual
/-- Modelled from the spec: `flatten_list` from the missing `utils` module —
flatten nested sequences (which can appear in a script through inclusion)
into a single ordered sequence; non-sequence entries are kept as they are. -/
def flatten_list : List YamlValue → List YamlValue
  | [] => []
  | v :: rest => flattenOne v ++ flatten_list rest
termination_by structural l => l

/-- One entry of `flatten_list`: a sequence is flattened recursively, any
other value is a singleton. -/
def flattenOne : YamlValue → List YamlValue
  | .seq l => flatten_list l
  | v => [v]
termination_by structural v => v
end

/-- Modelled from the spec: `parse_env_var` from the missing `utils`
module — split `KEY=VALUE` at the first `=`; a bare `KEY` reads the
same-named process environment variable, defaulting to the empty string.
The process environment is passed explicitly as `osEnv`. -/
def parse_env_var (osEnv : List (String × String)) (s : String) : String × String :=
  match s.splitOn "=" with
  | [k] => (k, (alookup k osEnv).getD "")
  | k :: rest => (k, joinSep "=" rest)
  | [] => ("", (alookup "" osEnv).getD "")

/-! ### The common script schema (`_process_script_node`, lines 103-128) -/

/-- `_process_script_node(node, name)`: normalize the three accepted shapes
of a script node.  Note the Python truthiness test `if not script:` on the
`script` value of a mapping node. -/
def _process_script_node (node : YamlValue) (name : String) :
    Except ScubaErr (List YamlValue) :=
  match node with
  | .str s => .ok [.str s]
  | .map es =>
    match alookup "script" es with
    | none => .error (.configError (name ++ ": must have a \x27script\x27 subkey"))
    | some script =>
      if !pyTruthy script then
        .error (.configError (name ++ ": must have a \x27script\x27 subkey"))
      else
        match script with
        | .seq l => .ok l
        | .str s => .ok [.str s]
        | _ => .error (.configError (name ++ ".script: must be a string or list"))
  | _ => .error (.configError (name ++ ": must be string or dict"))

/-! ### Environment normalization (`_process_environment`, lines 131-151) -/

/-- `_process_environment(node, name)`: a falsy node yields the empty
mapping; a mapping stringifies each value, reading the process environment
for null values; a list parses `KEY=VALUE` / bare `KEY` strings; anything
else is a `ConfigError`. -/
def _process_environment (osEnv : List (String × String))
    (node : Option YamlValue) (name : String) :
    Except ScubaErr (List (String × String)) :=
  match node with
  | none => .ok []
  | some n =>
    if !pyTruthy n then .ok []
    else
      match n with
      | .map es =>
        .ok (es.foldl
          (fun acc kv =>
            dictSet acc kv.1
              (match kv.2 with
               | .null => (alookup kv.1 osEnv).getD ""
               | v => pyStr v))
          [])
      | .seq items =>
        items.foldlM
          (fun acc e =>
            match e with
            | .str s =>
              let kv := parse_env_var osEnv s
              .ok (dictSet acc kv.1 kv.2)
            | _ => .error (.pyError "AttributeError: partition"))
          []
      | other =>
        .error (.configError ("\x27" ++ name ++ "\x27 must be list or mapping, not "
          ++ pyTypeName other))

/-! ### Tri-state entrypoint (`_get_entrypoint`, lines 153-176) -/

/-- `_get_entrypoint(data)`: absent key gives `None` (here `none`); a null
value becomes the empty string; a non-string value is a `ConfigError`; a
string is returned as is. -/
def _get_entrypoint (data : List (String × YamlValue)) :
    Except ScubaErr (Option String) :=
  match alookup "entrypoint" data with
  | none => .ok none
  | some ep =>
    match (match ep with | .null => YamlValue.str "" | v => v : YamlValue) with
    | .str s => .ok (some s)
    | v =>
      .error (.configError ("\x27entrypoint\x27 must be a string, not " ++ pyTypeName v))

/-! ### The config object model (`ScubaAlias`, `ScubaConfig`) -/

/-- `ScubaAlias`: one named alias.  `image`, `shell` and `as_root` hold the
raw values from the document (`none` standing for Python `None`, i.e. an
absent key or a null value, exactly as `dict.get` returns); `entrypoint`
is the validated tri-state; `environment` is `None` for a simple
(string-bodied) alias and the normalized mapping for a rich alias. -/
structure ScubaAlias where
  name : String
  script : List YamlValue
  image : Option YamlValue
  entrypoint : Option String
  environment : Option (List (String × String))
  shell : Option YamlValue
  as_root : Option YamlValue

/-- `dict.get(k)` where a stored null is Python `None`, indistinguishable
from an absent key. -/
def pyGet (es : List (String × YamlValue)) (k : String) : Option YamlValue :=
  match alookup k es with
  | some .null => none
  | r => r

/-- `ScubaAlias.from_dict(name, node)`. -/
def scubaAliasFromDict (osEnv : List (String × String)) (name : String)
    (node : YamlValue) : Except ScubaErr ScubaAlias :=
  match _process_script_node node name with
  | .error e => .error e
  | .ok script =>
    match node with
    | .map es =>
      match _get_entrypoint es with
      | .error e => .error e
      | .ok ep =>
        match _process_environment osEnv (alookup "environment" es)
            (name ++ ".environment") with
        | .error e => .error e
        | .ok env =>
          .ok { name := name, script := script, image := pyGet es "image",
                entrypoint := ep, environment := some env,
                shell := pyGet es "shell", as_root := pyGet es "root" }
    | _ =>
      .ok { name := name, script := script, image := none, entrypoint := none,
            environment := none, shell := none, as_root := none }

/-- `ScubaConfig`: the validated model of one document.  Field names follow
the private attributes of the source class. -/
structure ScubaConfig where
  _image : Option YamlValue
  _shell : YamlValue
  _entrypoint : Option String
  _aliases : List (String × ScubaAlias)
  _hooks : List (String × List YamlValue)
  _environment : List (String × String)

/-- The fixed recognized set of top-level keys (`optional_nodes`). -/
def optional_nodes : List String :=
  ["image", "aliases", "hooks", "entrypoint", "environment", "shell"]

/-- The unrecognized-top-level-key check of `ScubaConfig.__init__`
(lines 214-218), with its exact message and pluralization. -/
def checkTopLevel (data : List (String × YamlValue)) : Except ScubaErr Unit :=
  let extra := (data.map Prod.fst).filter (fun n => !optional_nodes.contains n)
  if extra.isEmpty then .ok ()
  else
    .error (.configError (SCUBA_YML ++ ": Unrecognized node"
      ++ (if 1 < extra.length then "s" else "") ++ ": " ++ joinSep ", " extra))

/-- `ScubaConfig._load_aliases(data)`: every alias name must be free of
spaces; each node is built by `ScubaAlias.from_dict`.  A non-mapping
`aliases` value makes `.items()` raise `AttributeError`. -/
def loadAliases (osEnv : List (String × String))
    (data : List (String × YamlValue)) :
    Except ScubaErr (List (String × ScubaAlias)) :=
  match alookup "aliases" data with
  | none => .ok []
  | some (.map es) =>
    es.foldlM
      (fun acc kv =>
        if ' ' ∈ kv.1.data then
          .error (.configError "Alias names cannot contain spaces")
        else
          match scubaAliasFromDict osEnv kv.1 kv.2 with
          | .error e => .error e
          | .ok a => .ok (dictSet acc kv.1 a))
      []
  | some _ => .error (.pyError "AttributeError: items")

/-- `ScubaConfig._load_hooks(data)`: only the names `user` and `root` are
consulted; a falsy node means no hook.  A non-mapping `hooks` value makes
`.get` raise `AttributeError`. -/
def loadHooks (data : List (String × YamlValue)) :
    Except ScubaErr (List (String × List YamlValue)) :=
  match alookup "hooks" data with
  | none => .ok []
  | some (.map es) =>
    ["user", "root"].foldlM
      (fun acc name =>
        match alookup name es with
        | some node =>
          if pyTruthy node then
            match _process_script_node node name with
            | .error e => .error e
            | .ok hook => .ok (dictSet acc name hook)
          else .ok acc
        | none => .ok acc)
      []
  | some _ => .error (.pyError "AttributeError: get")

/-- `ScubaConfig.__init__(**data)`: reject unrecognized top-level keys,
then record `image` and `shell` verbatim and parse `entrypoint`, `aliases`,
`hooks` and `environment` in the order of the source. -/
def scubaConfigInit (osEnv : List (String × String))
    (data : List (String × YamlValue)) : Except ScubaErr ScubaConfig :=
  match checkTopLevel data with
  | .error e => .error e
  | .ok _ =>
    match _get_entrypoint data with
    | .error e => .error e
    | .ok ep =>
      match loadAliases osEnv data with
      | .error e => .error e
      | .ok aliases =>
        match loadHooks data with
        | .error e => .error e
        | .ok hooks =>
          match _process_environment osEnv (alookup "environment" data)
              "environment" with
          | .error e => .error e
          | .ok env =>
            .ok { _image := pyGet data "image",
                  _shell := (match alookup "shell" data with
                             | none => .str DEFAULT_SHELL
                             | some v => v),
                  _entrypoint := ep, _aliases := aliases, _hooks := hooks,
                  _environment := env }

/-- The `ScubaConfig.image` property (lines 252-256): a falsy stored image
raises `ConfigError("Top-level 'image' not set")`. -/
def ScubaConfig.imageProp (cfg : ScubaConfig) : Except ScubaErr YamlValue :=
  match cfg._image with
  | some v => if pyTruthy v then .ok v else .error (.configError "Top-level \x27image\x27 not set")
  | none => .error (.configError "Top-level \x27image\x27 not set")

/-! ### Context resolution (`ScubaContext.process_command`, `scuba.py`) -/

/-- `ScubaContext`: the execution context under construction.  `script` is
`none` until the command phase sets it. -/
structure ScubaContext where
  image : Option YamlValue
  script : Option (List YamlValue)
  as_root : Bool
  entrypoint : Option String
  environment : List (String × String)
  shell : YamlValue

/-- `if shell: result.shell = shell` — a truthy CLI shell replaces the
shell set by the alias or the top-level config. -/
def applyShellOverride (shellO : Option String) (r : ScubaContext) : ScubaContext :=
  match shellO with
  | some s => if s ≠ "" then { r with shell := .str s } else r
  | none => r

/-- `if image: result.image = image` — a truthy CLI image overrides what an
alias might have set. -/
def applyImageOverride (imageO : Option String) (r : ScubaContext) : ScubaContext :=
  match imageO with
  | some s => if s ≠ "" then { r with image := some (.str s) } else r
  | none => r

/-- `if not result.image: result.image = cfg.image` — a still-falsy image
falls back to the config's `image` property, which raises `ConfigError`
when that too is unset. -/
def applyImageFallback (cfg : ScubaConfig) (r : ScubaContext) :
    Except ScubaErr ScubaContext :=
  if optTruthy r.image then .ok r
  else
    match cfg.imageProp with
    | .ok v => .ok { r with image := some v }
    | .error e => .error e

/-- The post-merge override phase of `process_command`: shell override,
then image override, then image fallback, in source order. -/
def applyOverrides (cfg : ScubaConfig) (imageO shellO : Option String)
    (r : ScubaContext) : Except ScubaErr ScubaContext :=
  applyImageFallback cfg (applyImageOverride imageO (applyShellOverride shellO r))

/-- The seed context of `process_command`: entrypoint, environment and
shell come from the config's accessors, image and script start unset,
`as_root` starts false. -/
def seedContext (cfg : ScubaConfig) : ScubaContext :=
  { image := none, script := none, as_root := false,
    entrypoint := cfg._entrypoint, environment := cfg._environment,
    shell := cfg._shell }

/-- The alias-field-override block of `process_command`: a truthy alias
image replaces the image, a not-`None` entrypoint or shell replaces that
field, a truthy `as_root` sets the flag, and a truthy alias environment is
merged over the context environment (alias wins per key). -/
def applyAlias (al : ScubaAlias) (r : ScubaContext) : ScubaContext :=
  let r1 := if optTruthy al.image then { r with image := al.image } else r
  let r2 := match al.entrypoint with
    | some e => { r1 with entrypoint := some e }
    | none => r1
  let r3 := match al.shell with
    | some sh => { r2 with shell := sh }
    | none => r2
  let r4 := if optTruthy al.as_root then { r3 with as_root := true } else r3
  match al.environment with
  | some env =>
    if !env.isEmpty then { r4 with environment := dictUpdate r4.environment env }
    else r4
  | none => r4

/-- The `if command:` block of `process_command`: no alias match treats the
whole token list as a literal command; a multi-line alias allows no extra
tokens; a single-line alias pops the alias name off the caller's list and
appends the remaining tokens, shell-quoted, to its single line.  Returns
the final state of the `command` list together with the context or the
raised error. -/
def commandPhase (cfg : ScubaConfig) (command : List String) :
    List String × Except ScubaErr ScubaContext :=
  match command with
  | [] => (command, .ok (seedContext cfg))
  | tok :: rest =>
    match alookup tok cfg._aliases with
    | none =>
      (command, .ok { seedContext cfg with
        script := some [.str (shell_quote_cmd command)] })
    | some al =>
      let r5 := applyAlias al (seedContext cfg)
      if 1 < al.script.length then
        if 1 < command.length then
          (command,
           .error (.configError "Additional arguments not allowed with multi-line aliases"))
        else
          (command, .ok { r5 with script := some al.script })
      else
        match al.script.head? with
        | some (.str line) =>
          (rest, .ok { r5 with
            script := some [.str (line ++ " " ++ shell_quote_cmd rest)] })
        | some _ => (rest, .error (.pyError "TypeError: can only concatenate str"))
        | none => (rest, .error (.pyError "IndexError: list index out of range"))

/-- The tail of `process_command`: flatten the script (when the command
phase produced one), then apply the call-site overrides. -/
def finishPhase (cfg : ScubaConfig) (imageO shellO : Option String)
    (step : List String × Except ScubaErr ScubaContext) :
    List String × Except ScubaErr ScubaContext :=
  match step with
  | (cmd2, .error e) => (cmd2, .error e)
  | (cmd2, .ok r) =>
    match applyOverrides cfg imageO shellO
        { r with script := r.script.map flatten_list } with
    | .ok r2 => (cmd2, .ok r2)
    | .error e => (cmd2, .error e)

/-- `ScubaContext.process_command(cfg, command, image, shell)`.  The first
component of the result is the final state of the caller's `command` list
(`command.pop(0)` mutates it in the single-line-alias branch); the second
is the resolved context or the raised error. -/
def process_command (cfg : ScubaConfig) (command : List String)
    (imageO shellO : Option String) :
    List String × Except ScubaErr ScubaContext :=
  finishPhase cfg imageO shellO (commandPhase cfg command)


/-! ### Concrete scenarios used by the claim theorems -/

def fsNested : List (String × RawNode) :=
  [("/m.yml", .seq [.fromYaml ["x.yml", "k"], .fromYaml ["b.yml", "k"]]),
   ("/x.yml", .map [("k", .str "v")]),
   ("/b.yml", .map [("k", .fromYaml ["x.yml", "k"])])]

def fsEscape : List (String × RawNode) :=
  [("/m.yml", .fromYaml ["n.yml", "\\.its.somewhere\\.down.here"]),
   ("/n.yml", .map [(".its", .map [("somewhere.down", .map [("here", .int 42)])])])]

def fsTypeErr : List (String × RawNode) :=
  [("/m.yml", .fromYaml ["t.yml", "a.b"]),
   ("/t.yml", .map [("a", .str "xyz")])]

def fsMissing : List (String × RawNode) :=
  [("/r.yml", .fromYaml ["t2.yml", "missing"]),
   ("/t2.yml", .map [("a", .str "b")])]

def fsShared : List (String × RawNode) :=
  [("/w.yml", .seq [.fromYaml ["t.yml", "k"], .fromYaml ["t.yml", "k"]]),
   ("/t.yml", .map [("k", .str "v")])]

def alC : ScubaAlias :=
  { name := "snap", script := [.str "crackle pop"], image := some (.str "B"),
    entrypoint := none, environment := some [], shell := none, as_root := none }

def cfgC : ScubaConfig :=
  { _image := some (.str "A"), _shell := .str "/bin/sh", _entrypoint := none,
    _aliases := [("snap", alC)], _hooks := [], _environment := [] }

def cfgNoImg : ScubaConfig :=
  { _image := none, _shell := .str "/bin/sh", _entrypoint := none,
    _aliases := [], _hooks := [], _environment := [] }

def alMulti : ScubaAlias :=
  { name := "m", script := [.str "one", .str "two"], image := none,
    entrypoint := none, environment := some [], shell := none, as_root := none }

def cfgM : ScubaConfig :=
  { _image := some (.str "A"), _shell := .str "/bin/sh", _entrypoint := none,
    _aliases := [("m", alMulti)], _hooks := [], _environment := [] }

def ctxW1 : ScubaContext :=
  { image := some (.str "C"), script := some [.str "crackle pop "],
    as_root := false, entrypoint := none, environment := [],
    shell := .str "/bin/sh" }

def ctxW2 : ScubaContext :=
  { image := some (.str "B"), script := some [.str "crackle pop x"],
    as_root := false, entrypoint := none, environment := [],
    shell := .str "/bin/sh" }

def ctxW4 : ScubaContext :=
  { image := some (.str "B"),
    script := some [.str "crackle pop extra \x27more args\x27"],
    as_root := false, entrypoint := none, environment := [],
    shell := .str "/bin/sh" }

def cfgEpA : ScubaConfig :=
  { _image := some (.str "i"), _shell := .str "/bin/sh", _entrypoint := none,
    _aliases := [], _hooks := [], _environment := [] }

def cfgEpB : ScubaConfig :=
  { _image := none, _shell := .str "/bin/sh", _entrypoint := some "",
    _aliases := [], _hooks := [], _environment := [] }

def cfgEpS : ScubaConfig :=
  { _image := none, _shell := .str "/bin/sh", _entrypoint := some "ep",
    _aliases := [], _hooks := [], _environment := [] }


/-! ### Helper lemmas -/

theorem str_truthy {s : String} (h : s ≠ "") : pyTruthy (.str s) = true := by
  cases s with
  | mk data =>
    cases data with
    | nil => exact absurd rfl h
    | cons c cs => simp [pyTruthy]

theorem seq_truthy {l : List YamlValue} (h : l ≠ []) : pyTruthy (.seq l) = true := by
  cases l with
  | nil => exact absurd rfl h
  | cons x xs => simp [pyTruthy]

theorem optTruthy_some (v : YamlValue) : optTruthy (some v) = pyTruthy v := rfl

theorem optTruthy_none : optTruthy none = false := rfl

theorem flatten_list_map_str (l : List String) :
    flatten_list (l.map YamlValue.str) = l.map YamlValue.str := by
  induction l with
  | nil => rfl
  | cons x xs ih => simp [flatten_list, flattenOne, ih]

theorem applyAlias_image (al : ScubaAlias) (r : ScubaContext) :
    (applyAlias al r).image = if optTruthy al.image then al.image else r.image := by
  unfold applyAlias
  repeat' split
  all_goals (try simp_all)

theorem applyAlias_script (al : ScubaAlias) (r : ScubaContext) :
    (applyAlias al r).script = r.script := by
  unfold applyAlias
  repeat' split
  all_goals (try simp_all)

theorem applyShellOverride_image (sh : Option String) (r : ScubaContext) :
    (applyShellOverride sh r).image = r.image := by
  unfold applyShellOverride
  repeat' split
  all_goals simp

theorem applyShellOverride_script (sh : Option String) (r : ScubaContext) :
    (applyShellOverride sh r).script = r.script := by
  unfold applyShellOverride
  repeat' split
  all_goals simp

theorem applyImageOverride_none (r : ScubaContext) :
    applyImageOverride none r = r := rfl

theorem applyImageOverride_some {C : String} (hC : C ≠ "") (r : ScubaContext) :
    applyImageOverride (some C) r = { r with image := some (.str C) } := by
  simp [applyImageOverride, hC]

theorem applyImageOverride_script (io : Option String) (r : ScubaContext) :
    (applyImageOverride io r).script = r.script := by
  unfold applyImageOverride
  repeat' split
  all_goals simp

theorem applyImageFallback_truthy {cfg : ScubaConfig} {r : ScubaContext}
    (hr : optTruthy r.image = true) :
    applyImageFallback cfg r = .ok r := by
  simp [applyImageFallback, hr]

theorem applyImageFallback_falsy_ok {cfg : ScubaConfig} {r : ScubaContext}
    {v : YamlValue} (hr : optTruthy r.image = false) (hi : cfg.imageProp = .ok v) :
    applyImageFallback cfg r = .ok { r with image := some v } := by
  simp [applyImageFallback, hr, hi]

theorem applyImageFallback_falsy_err {cfg : ScubaConfig} {r : ScubaContext}
    {e : ScubaErr} (hr : optTruthy r.image = false) (hi : cfg.imageProp = .error e) :
    applyImageFallback cfg r = .error e := by
  simp [applyImageFallback, hr, hi]

theorem applyImageFallback_ok_cases {cfg : ScubaConfig} {r ctx : ScubaContext}
    (h : applyImageFallback cfg r = .ok ctx) :
    ctx = r ∨ ∃ v, ctx = { r with image := some v } := by
  unfold applyImageFallback at h
  by_cases htr : optTruthy r.image = true
  · rw [if_pos htr] at h
    cases h
    exact Or.inl rfl
  · rw [if_neg htr] at h
    cases hi : cfg.imageProp with
    | ok v =>
      rw [hi] at h
      cases h
      exact Or.inr ⟨v, rfl⟩
    | error e =>
      rw [hi] at h
      cases h

theorem applyOverrides_image_override {cfg : ScubaConfig} {C : String}
    {sh : Option String} {r ctx : ScubaContext} (hC : C ≠ "")
    (h : applyOverrides cfg (some C) sh r = .ok ctx) :
    ctx.image = some (.str C) := by
  unfold applyOverrides at h
  rw [applyImageOverride_some hC] at h
  have htr : optTruthy ({ applyShellOverride sh r with
      image := some (YamlValue.str C) } : ScubaContext).image = true := by
    simp [optTruthy, str_truthy hC]
  rw [applyImageFallback_truthy htr] at h
  cases h
  rfl

theorem applyOverrides_image_none {cfg : ScubaConfig}
    {sh : Option String} {r ctx : ScubaContext}
    (hr : optTruthy r.image = true)
    (h : applyOverrides cfg none sh r = .ok ctx) :
    ctx.image = r.image := by
  unfold applyOverrides at h
  rw [applyImageOverride_none] at h
  have hsh : optTruthy (applyShellOverride sh r).image = true := by
    rw [applyShellOverride_image]; exact hr
  rw [applyImageFallback_truthy hsh] at h
  cases h
  rw [applyShellOverride_image]

theorem applyOverrides_fallback_err {cfg : ScubaConfig} {e : ScubaErr}
    {sh : Option String} {r : ScubaContext}
    (hr : optTruthy r.image = false) (hi : cfg.imageProp = .error e) :
    applyOverrides cfg none sh r = .error e := by
  unfold applyOverrides
  rw [applyImageOverride_none]
  have hsh : optTruthy (applyShellOverride sh r).image = false := by
    rw [applyShellOverride_image]; exact hr
  rw [applyImageFallback_falsy_err hsh hi]

theorem applyOverrides_fallback_ok {cfg : ScubaConfig} {v : YamlValue}
    {sh : Option String} {r : ScubaContext}
    (hr : optTruthy r.image = false) (hi : cfg.imageProp = .ok v) :
    (applyOverrides cfg none sh r).map (fun c => c.image) = .ok (some v) := by
  unfold applyOverrides
  rw [applyImageOverride_none]
  have hsh : optTruthy (applyShellOverride sh r).image = false := by
    rw [applyShellOverride_image]; exact hr
  rw [applyImageFallback_falsy_ok hsh hi]
  rfl

theorem applyOverrides_script {cfg : ScubaConfig} {io sh : Option String}
    {r ctx : ScubaContext}
    (h : applyOverrides cfg io sh r = .ok ctx) :
    ctx.script = r.script := by
  unfold applyOverrides at h
  rcases applyImageFallback_ok_cases h with rfl | ⟨v, rfl⟩
  · rw [applyImageOverride_script, applyShellOverride_script]
  · show (applyImageOverride io (applyShellOverride sh r)).script = r.script
    rw [applyImageOverride_script, applyShellOverride_script]

theorem applyOverrides_script_ok {cfg : ScubaConfig} {v : YamlValue}
    {sh : Option String} {r : ScubaContext} (hi : cfg.imageProp = .ok v) :
    (applyOverrides cfg none sh r).map (fun c => c.script) = .ok r.script := by
  unfold applyOverrides
  rw [applyImageOverride_none]
  by_cases htr : optTruthy (applyShellOverride sh r).image = true
  · rw [applyImageFallback_truthy htr]
    show Except.ok (applyShellOverride sh r).script = Except.ok r.script
    rw [applyShellOverride_script]
  · rw [applyImageFallback_falsy_ok (by simpa using htr) hi]
    show Except.ok (applyShellOverride sh r).script = Except.ok r.script
    rw [applyShellOverride_script]

theorem finishPhase_fst (cfg : ScubaConfig) (io sh : Option String)
    (p : List String × Except ScubaErr ScubaContext) :
    (finishPhase cfg io sh p).1 = p.1 := by
  unfold finishPhase
  repeat' split
  all_goals simp_all

theorem finishPhase_err (cfg : ScubaConfig) (io sh : Option String)
    (cmd2 : List String) (e : ScubaErr) :
    finishPhase cfg io sh (cmd2, .error e) = (cmd2, .error e) := rfl

theorem finishPhase_ok (cfg : ScubaConfig) (io sh : Option String)
    (cmd2 : List String) (r : ScubaContext) :
    (finishPhase cfg io sh (cmd2, .ok r)).2
      = applyOverrides cfg io sh { r with script := r.script.map flatten_list } := by
  unfold finishPhase
  repeat' split
  all_goals simp_all

theorem commandPhase_empty (cfg : ScubaConfig) :
    commandPhase cfg [] = ([], .ok (seedContext cfg)) := rfl

theorem commandPhase_noalias {cfg : ScubaConfig} {tok : String}
    {rest : List String} (h : alookup tok cfg._aliases = none) :
    commandPhase cfg (tok :: rest)
      = (tok :: rest, .ok { seedContext cfg with
          script := some [.str (shell_quote_cmd (tok :: rest))] }) := by
  simp [commandPhase, h]

theorem commandPhase_multi_err {cfg : ScubaConfig} {tok : String}
    {rest : List String} {al : ScubaAlias}
    (h : alookup tok cfg._aliases = some al)
    (hlen : 1 < al.script.length) (hrest : rest ≠ []) :
    commandPhase cfg (tok :: rest) = (tok :: rest,
      .error (.configError "Additional arguments not allowed with multi-line aliases")) := by
  have hr : 1 < (tok :: rest).length := by
    cases rest with
    | nil => exact absurd rfl hrest
    | cons a as => simp
  simp [commandPhase, h, hlen, hr, hrest]

theorem commandPhase_multi_ok {cfg : ScubaConfig} {tok : String}
    {al : ScubaAlias} (h : alookup tok cfg._aliases = some al)
    (hlen : 1 < al.script.length) :
    commandPhase cfg [tok] = ([tok],
      .ok { applyAlias al (seedContext cfg) with script := some al.script }) := by
  simp [commandPhase, h, hlen]

theorem commandPhase_single {cfg : ScubaConfig} {tok : String}
    {rest : List String} {al : ScubaAlias} {line : String}
    (h : alookup tok cfg._aliases = some al)
    (hs : al.script = [.str line]) :
    commandPhase cfg (tok :: rest) = (rest,
      .ok { applyAlias al (seedContext cfg) with
        script := some [.str (line ++ " " ++ shell_quote_cmd rest)] }) := by
  simp [commandPhase, h, hs]

theorem commandPhase_single_nonstr {cfg : ScubaConfig} {tok : String}
    {rest : List String} {al : ScubaAlias} {v : YamlValue}
    (h : alookup tok cfg._aliases = some al)
    (hs : al.script = [v]) (hv : ∀ line, v ≠ .str line) :
    commandPhase cfg (tok :: rest)
      = (rest, .error (.pyError "TypeError: can only concatenate str")) := by
  cases v with
  | str line => exact absurd rfl (hv line)
  | null => simp [commandPhase, h, hs]
  | bool b => simp [commandPhase, h, hs]
  | int n => simp [commandPhase, h, hs]
  | seq l => simp [commandPhase, h, hs]
  | map es => simp [commandPhase, h, hs]

theorem commandPhase_script_nil {cfg : ScubaConfig} {tok : String}
    {rest : List String} {al : ScubaAlias}
    (h : alookup tok cfg._aliases = some al) (hs : al.script = []) :
    commandPhase cfg (tok :: rest)
      = (rest, .error (.pyError "IndexError: list index out of range")) := by
  simp [commandPhase, h, hs]

theorem process_ok_applyOverrides {cfg : ScubaConfig} {cmd : List String}
    {io sh : Option String} {ctx : ScubaContext}
    (h : (process_command cfg cmd io sh).2 = .ok ctx) :
    ∃ r, applyOverrides cfg io sh r = .ok ctx := by
  unfold process_command at h
  rcases hcp : commandPhase cfg cmd with ⟨c2, st⟩
  rw [hcp] at h
  cases st with
  | error e => rw [finishPhase_err] at h; cases h
  | ok r => rw [finishPhase_ok] at h; exact ⟨_, h⟩

theorem checkTopLevel_extra_err {data : List (String × YamlValue)}
    (hne : (data.map Prod.fst).filter (fun n => !optional_nodes.contains n) ≠ []) :
    checkTopLevel data = .error (.configError
      (SCUBA_YML ++ ": Unrecognized node"
        ++ (if 1 < ((data.map Prod.fst).filter (fun n => !optional_nodes.contains n)).length
            then "s" else "")
        ++ ": "
        ++ joinSep ", " ((data.map Prod.fst).filter (fun n => !optional_nodes.contains n)))) := by
  unfold checkTopLevel
  rw [if_neg]
  intro hemp
  exact hne (by simpa [List.isEmpty_iff] using hemp)

theorem checkTopLevel_ok {data : List (String × YamlValue)}
    (he : (data.map Prod.fst).filter (fun n => !optional_nodes.contains n) = []) :
    checkTopLevel data = .ok () := by
  unfold checkTopLevel
  rw [if_pos]
  simpa [List.isEmpty_iff] using he

theorem scubaConfigInit_entrypoint {osEnv : List (String × String)}
    {data : List (String × YamlValue)} {cfg : ScubaConfig}
    (h : scubaConfigInit osEnv data = .ok cfg) :
    _get_entrypoint data = .ok cfg._entrypoint := by
  unfold scubaConfigInit at h
  repeat' split at h
  all_goals (try cases h)
  all_goals simp_all

theorem getEntrypoint_nonstr {data : List (String × YamlValue)} {v : YamlValue}
    (hv : alookup "entrypoint" data = some v)
    (hnull : v ≠ .null) (hstr : ∀ s, v ≠ .str s) :
    _get_entrypoint data
      = .error (.configError ("\x27entrypoint\x27 must be a string, not " ++ pyTypeName v)) := by
  unfold _get_entrypoint
  rw [hv]
  cases v with
  | null => exact absurd rfl hnull
  | str s => exact absurd rfl (hstr s)
  | bool b => rfl
  | int n => rfl
  | seq l => rfl
  | map es => rfl


/-! ### The claims -/

/-- C1: image precedence in resolution.  A non-empty call-site override `C`
always wins; with no override, a matched alias declaring non-empty image `B`
wins; with neither, the global image `A` is used; and when the global image
is also absent the resolution fails with `ConfigError` ("Top-level 'image'
not set"). -/
theorem image_precedence :
    (∀ (cfg : ScubaConfig) (cmd : List String) (sh : Option String)
       (ctx : ScubaContext) (C : String), C ≠ "" →
      (process_command cfg cmd (some C) sh).2 = .ok ctx →
      ctx.image = some (.str C)) ∧
    (∀ (cfg : ScubaConfig) (tok : String) (rest : List String) (sh : Option String)
       (ctx : ScubaContext) (al : ScubaAlias) (B : String), B ≠ "" →
      alookup tok cfg._aliases = some al → al.image = some (.str B) →
      (process_command cfg (tok :: rest) none sh).2 = .ok ctx →
      ctx.image = some (.str B)) ∧
    (∀ (cfg : ScubaConfig) (cmd : List String) (sh : Option String) (A : String),
      A ≠ "" →
      (cmd = [] ∨ ∃ tok rest, cmd = tok :: rest ∧ alookup tok cfg._aliases = none) →
      cfg._image = some (.str A) →
      ((process_command cfg cmd none sh).2).map (fun c => c.image)
        = .ok (some (.str A))) ∧
    (∀ (cfg : ScubaConfig) (cmd : List String) (sh : Option String),
      (cmd = [] ∨ ∃ tok rest, cmd = tok :: rest ∧ alookup tok cfg._aliases = none) →
      cfg._image = none →
      (process_command cfg cmd none sh).2
        = .error (.configError "Top-level \x27image\x27 not set")) := by
  refine ⟨?_, ?_, ?_, ?_⟩
  · intro cfg cmd sh ctx C hC h
    obtain ⟨r, hr⟩ := process_ok_applyOverrides h
    exact applyOverrides_image_override hC hr
  · intro cfg tok rest sh ctx al B hB hal haimg h
    have htr : optTruthy al.image = true := by
      simp [haimg, optTruthy_some, str_truthy hB]
    unfold process_command at h
    by_cases hlen : 1 < al.script.length
    · cases rest with
      | nil =>
        rw [commandPhase_multi_ok hal hlen, finishPhase_ok] at h
        have hi := applyOverrides_image_none
          (by simp [applyAlias_image, htr, haimg, optTruthy_some, str_truthy hB, seedContext]) h
        rw [hi]
        simp [applyAlias_image, htr, haimg, seedContext, optTruthy_some, str_truthy hB]
      | cons a as =>
        rw [commandPhase_multi_err hal hlen (by intro hh; cases hh), finishPhase_err] at h
        cases h
    · cases hsc : al.script with
      | nil =>
        rw [commandPhase_script_nil hal hsc, finishPhase_err] at h
        cases h
      | cons v tail =>
        have htail : tail = [] := by
          cases tail with
          | nil => rfl
          | cons b bs => exact absurd (by rw [hsc]; simp) hlen
        subst htail
        cases v with
        | str line =>
          rw [commandPhase_single hal hsc, finishPhase_ok] at h
          have hi := applyOverrides_image_none
            (by simp [applyAlias_image, htr, haimg, optTruthy_some, str_truthy hB, seedContext]) h
          rw [hi]
          simp [applyAlias_image, htr, haimg, seedContext, optTruthy_some, str_truthy hB]
        | null =>
          rw [commandPhase_single_nonstr hal hsc (by intro l hh; cases hh),
            finishPhase_err] at h
          cases h
        | bool b =>
          rw [commandPhase_single_nonstr hal hsc (by intro l hh; cases hh),
            finishPhase_err] at h
          cases h
        | int n =>
          rw [commandPhase_single_nonstr hal hsc (by intro l hh; cases hh),
            finishPhase_err] at h
          cases h
        | seq l =>
          rw [commandPhase_single_nonstr hal hsc (by intro l hh; cases hh),
            finishPhase_err] at h
          cases h
        | map es =>
          rw [commandPhase_single_nonstr hal hsc (by intro l hh; cases hh),
            finishPhase_err] at h
          cases h
  · intro cfg cmd sh A hA hno himg
    have hip : cfg.imageProp = .ok (.str A) := by
      simp [ScubaConfig.imageProp, himg, str_truthy hA]
    rcases hno with rfl | ⟨tok, rest, rfl, hal⟩
    · unfold process_command
      rw [commandPhase_empty, finishPhase_ok]
      exact applyOverrides_fallback_ok (by simp [seedContext, optTruthy_none]) hip
    · unfold process_command
      rw [commandPhase_noalias hal, finishPhase_ok]
      exact applyOverrides_fallback_ok (by simp [seedContext, optTruthy_none]) hip
  · intro cfg cmd sh hno himg
    have hip : cfg.imageProp = .error (.configError "Top-level \x27image\x27 not set") := by
      simp [ScubaConfig.imageProp, himg]
    rcases hno with rfl | ⟨tok, rest, rfl, hal⟩
    · unfold process_command
      rw [commandPhase_empty, finishPhase_ok]
      exact applyOverrides_fallback_err (by simp [seedContext, optTruthy_none]) hip
    · unfold process_command
      rw [commandPhase_noalias hal, finishPhase_ok]
      exact applyOverrides_fallback_err (by simp [seedContext, optTruthy_none]) hip

/-- Witness for C1: the four precedence scenarios at a concrete config with
global image "A", alias image "B" and call-site override "C". -/
theorem image_precedence_witness :
    ctxW1.image = some (.str "C") ∧
    ctxW2.image = some (.str "B") ∧
    ((process_command cfgC ["other"] none none).2).map (fun c => c.image)
      = .ok (some (.str "A")) ∧
    (process_command cfgNoImg ["ls"] none none).2
      = .error (.configError "Top-level \x27image\x27 not set") := by
  refine ⟨?_, ?_, ?_, ?_⟩
  · exact image_precedence.1 cfgC ["snap"] none ctxW1 "C" (by decide) rfl
  · exact image_precedence.2.1 cfgC "snap" ["x"] none ctxW2 alC "B" (by decide) rfl rfl rfl
  · exact image_precedence.2.2.1 cfgC ["other"] none "A" (by decide)
      (Or.inr ⟨"other", [], rfl, rfl⟩) rfl
  · exact image_precedence.2.2.2 cfgNoImg ["ls"] none
      (Or.inr ⟨"ls", [], rfl, rfl⟩) rfl

/-- C2: multi-line alias arity.  For an alias whose script has more than one
line, resolution fails with `ConfigError` ("Additional arguments not allowed
with multi-line aliases") exactly when extra tokens follow the alias name;
with the alias name alone (and a truthy config image so that the image
fallback succeeds) it succeeds and the context script is exactly the
alias's multi-line body. -/
theorem multiline_alias_arity :
    (∀ (cfg : ScubaConfig) (tok : String) (rest : List String)
       (al : ScubaAlias) (ov sh : Option String),
      alookup tok cfg._aliases = some al → 1 < al.script.length → rest ≠ [] →
      (process_command cfg (tok :: rest) ov sh).2
        = .error (.configError "Additional arguments not allowed with multi-line aliases")) ∧
    (∀ (cfg : ScubaConfig) (tok : String) (al : ScubaAlias)
       (body : List String) (iv : YamlValue) (sh : Option String),
      alookup tok cfg._aliases = some al → al.script = body.map .str →
      1 < body.length → cfg._image = some iv → pyTruthy iv = true →
      ((process_command cfg [tok] none sh).2).map (fun c => c.script)
        = .ok (some (body.map .str))) := by
  constructor
  · intro cfg tok rest al ov sh hal hlen hrest
    unfold process_command
    rw [commandPhase_multi_err hal hlen hrest, finishPhase_err]
  · intro cfg tok al body iv sh hal hs hblen himg hpt
    have hlen : 1 < al.script.length := by
      rw [hs]; simpa using hblen
    have hip : cfg.imageProp = .ok iv := by
      simp [ScubaConfig.imageProp, himg, hpt]
    unfold process_command
    rw [commandPhase_multi_ok hal hlen, finishPhase_ok,
      applyOverrides_script_ok hip]
    simp [hs, flatten_list_map_str]

/-- Witness for C2: a two-line alias invoked with one extra token fails with
the multi-line-arguments error; invoked alone it succeeds with its body. -/
theorem multiline_alias_arity_witness :
    (process_command cfgM ["m", "x"] none none).2
      = .error (.configError "Additional arguments not allowed with multi-line aliases") ∧
    ((process_command cfgM ["m"] none none).2).map (fun c => c.script)
      = .ok (some (List.map YamlValue.str ["one", "two"])) := by
  constructor
  · exact multiline_alias_arity.1 cfgM "m" ["x"] alMulti none none rfl (by decide)
      (by intro h; cases h)
  · exact multiline_alias_arity.2 cfgM "m" alMulti ["one", "two"] (.str "A") none
      rfl rfl (by decide) rfl rfl

/-- C3: tri-state entrypoint parse.  Building the config yields entrypoint
`none` (absent) when the key is missing, `some ""` when the key holds null,
`some s` for a string `s` (including the empty string), and a `ConfigError`
when the key holds a non-string non-null value; absent is distinguishable
from the empty string. -/
theorem entrypoint_tristate :
    (∀ (osEnv : List (String × String)) (data : List (String × YamlValue))
       (cfg : ScubaConfig),
      alookup "entrypoint" data = none →
      scubaConfigInit osEnv data = .ok cfg → cfg._entrypoint = none) ∧
    (∀ (osEnv : List (String × String)) (data : List (String × YamlValue))
       (cfg : ScubaConfig),
      alookup "entrypoint" data = some .null →
      scubaConfigInit osEnv data = .ok cfg → cfg._entrypoint = some "") ∧
    (∀ (osEnv : List (String × String)) (data : List (String × YamlValue))
       (cfg : ScubaConfig) (s : String),
      alookup "entrypoint" data = some (.str s) →
      scubaConfigInit osEnv data = .ok cfg → cfg._entrypoint = some s) ∧
    (∀ (osEnv : List (String × String)) (data : List (String × YamlValue))
       (v : YamlValue),
      alookup "entrypoint" data = some v → v ≠ .null → (∀ s, v ≠ .str s) →
      ∃ m, scubaConfigInit osEnv data = .error (.configError m)) ∧
    ((none : Option String) ≠ some "") := by
  refine ⟨?_, ?_, ?_, ?_, by simp⟩
  · intro osEnv data cfg hl h
    have he := scubaConfigInit_entrypoint h
    unfold _get_entrypoint at he
    rw [hl] at he
    exact (Except.ok.inj he).symm
  · intro osEnv data cfg hl h
    have he := scubaConfigInit_entrypoint h
    unfold _get_entrypoint at he
    rw [hl] at he
    exact (Except.ok.inj he).symm
  · intro osEnv data cfg s hl h
    have he := scubaConfigInit_entrypoint h
    unfold _get_entrypoint at he
    rw [hl] at he
    exact (Except.ok.inj he).symm
  · intro osEnv data v hl hnull hstr
    by_cases hck : (data.map Prod.fst).filter (fun n => !optional_nodes.contains n) = []
    · refine ⟨"\x27entrypoint\x27 must be a string, not " ++ pyTypeName v, ?_⟩
      unfold scubaConfigInit
      rw [checkTopLevel_ok hck, getEntrypoint_nonstr hl hnull hstr]
    · exact ⟨_, by
        unfold scubaConfigInit
        rw [checkTopLevel_extra_err hck]⟩

/-- Witness for C3: concrete documents for the absent, null, string and
non-string entrypoint cases. -/
theorem entrypoint_tristate_witness :
    cfgEpA._entrypoint = none ∧
    cfgEpB._entrypoint = some "" ∧
    cfgEpS._entrypoint = some "ep" ∧
    (∃ m, scubaConfigInit [] [("entrypoint", .int 3)]
        = .error (.configError m)) := by
  refine ⟨?_, ?_, ?_, ?_⟩
  · exact entrypoint_tristate.1 [] [("image", .str "i")] cfgEpA rfl rfl
  · exact entrypoint_tristate.2.1 [] [("entrypoint", .null)] cfgEpB rfl rfl
  · exact entrypoint_tristate.2.2.1 [] [("entrypoint", .str "ep")] cfgEpS "ep" rfl rfl
  · exact entrypoint_tristate.2.2.2.1 [] [("entrypoint", .int 3)] (.int 3) rfl
      (by intro h; cases h) (by intro s h; cases h)

/-- C4: single-line alias argument append.  For an alias whose script is the
single line `line`, a successful resolution of `tok :: rest` produces the
one-line script `line ++ " " ++ shell_quote_cmd rest`; and the spec's
example quoting holds: `shell_quote_cmd ["extra", "more args"]` is
`extra 'more args'`. -/
theorem single_line_alias_append :
    (∀ (cfg : ScubaConfig) (tok : String) (rest : List String)
       (al : ScubaAlias) (line : String) (ov sh : Option String) (ctx : ScubaContext),
      alookup tok cfg._aliases = some al → al.script = [.str line] →
      (process_command cfg (tok :: rest) ov sh).2 = .ok ctx →
      ctx.script = some [.str (line ++ " " ++ shell_quote_cmd rest)]) ∧
    shell_quote_cmd ["extra", "more args"] = "extra \x27more args\x27" := by
  constructor
  · intro cfg tok rest al line ov sh ctx hal hs h
    unfold process_command at h
    rw [commandPhase_single hal hs, finishPhase_ok] at h
    have hsc := applyOverrides_script h
    rw [hsc]
    simp [flatten_list, flattenOne]
  · rfl

/-- Witness for C4: alias script "crackle pop" invoked with
`["extra", "more args"]` yields `["crackle pop extra 'more args'"]`. -/
theorem single_line_alias_append_witness :
    ctxW4.script = some [.str "crackle pop extra \x27more args\x27"] :=
  single_line_alias_append.1 cfgC "snap" ["extra", "more args"] alC "crackle pop"
    none none ctxW4 rfl rfl rfl

/-- C5 counterexample: the inclusion cache is per-loader, not per top-level
load.  `/m.yml` includes a value from `/x.yml` and one from `/b.yml`, and
`/b.yml` itself includes from `/x.yml`; within this single resolution the
file `/x.yml` is opened twice (once from each including document's own
cache), not once as the claim requires. -/
theorem inclusion_caching_counterexample :
    (loadDoc fsNested 10 "/m.yml").toOption.map (fun r => List.count "/x.yml" r.2)
      = some 2 ∧
    loadDoc fsNested 10 "/m.yml"
      = .ok (.seq [.str "v", .str "v"], ["/m.yml", "/x.yml", "/b.yml", "/x.yml"]) ∧
    (2 : Nat) ≠ 1 := by
  exact ⟨rfl, rfl, by decide⟩

/-- C5 amended: within one document, a second `!from_yaml` directive whose
joined target path equals an earlier directive's returns the cached parsed
value without re-opening the file (provided the cached document is truthy);
the cache is scoped to the including document's loader, so the target is
opened exactly once for that document. -/
theorem inclusion_caching_per_document :
    ∀ (fs : List (String × RawNode)) (fuel : Nat)
      (mainPath fname key1 key2 target : String)
      (doc : YamlValue) (tlog : List String) (v1 v2 : YamlValue),
      alookup mainPath fs
        = some (.seq [.fromYaml [fname, key1], .fromYaml [fname, key2]]) →
      pathJoin (dirname mainPath) fname = target →
      mainPath ≠ target →
      loadDoc fs fuel target = .ok (doc, tlog) →
      pyTruthy doc = true →
      List.count target tlog = 1 →
      descend doc (splitKeyPath key1) = .ok v1 →
      descend doc (splitKeyPath key2) = .ok v2 →
      loadDoc fs (fuel + 1) mainPath = .ok (.seq [v1, v2], mainPath :: tlog) ∧
      List.count target (mainPath :: tlog) = 1 := by
  intro fs fuel mainPath fname key1 key2 target doc tlog v1 v2
  intro hm hp hne hload htr hcount hd1 hd2
  constructor
  · unfold loadDoc
    rw [hm]
    simp only [resolveNodeF, resolveSeqF, alookup, dictSet]
    rw [hp, hload]
    simp [alookup, hd1, hd2, htr]
  · rw [List.count_cons]
    simp [hcount, hne, Ne.symm hne]

/-- Witness for the amended C5: two directives in one document referencing
`/t.yml` cause exactly one open of `/t.yml`. -/
theorem inclusion_caching_per_document_witness :
    loadDoc fsShared 5 "/w.yml"
      = .ok (.seq [.str "v", .str "v"], ["/w.yml", "/t.yml"]) ∧
    List.count "/t.yml" ["/w.yml", "/t.yml"] = 1 :=
  inclusion_caching_per_document fsShared 4 "/w.yml" "t.yml" "k" "k" "/t.yml"
    (.map [("k", .str "v")]) ["/t.yml"] (.str "v") (.str "v")
    rfl rfl (by decide) rfl rfl (by decide) rfl rfl

/-- C6: inclusion key-path escaping.  The key path is split on dots not
preceded by a backslash, each segment's backslash-dot becomes a literal
dot, and one mapping level is descended per segment: the path
`\.its.somewhere\.down.here` splits into segments that unescape to
`.its`, `somewhere.down`, `here`, and a full load through the loader
descends through exactly those keys. -/
theorem inclusion_key_escaping :
    splitKeyPath "\\.its.somewhere\\.down.here"
      = ["\\.its", "somewhere\\.down", "here"] ∧
    (splitKeyPath "\\.its.somewhere\\.down.here").map unescapeDots
      = [".its", "somewhere.down", "here"] ∧
    loadDoc fsEscape 5 "/m.yml" = .ok (.int 42, ["/m.yml", "/n.yml"]) := by
  exact ⟨rfl, rfl, rfl⟩

/-- C7 counterexample: when an intermediate segment's value is not a
mapping, the retrieval loop raises an uncaught `TypeError` (only `KeyError`
is caught and converted), so loading does not fail with the
`ReferenceError`-style YAML error the claim requires. -/
theorem missing_key_typeerror_counterexample :
    loadDoc fsTypeErr 5 "/m.yml"
      = .error (.pyError "TypeError: value is not subscriptable by a string key") ∧
    loadDoc fsTypeErr 5 "/m.yml"
      ≠ .error (.yamlError ("Key \"a.b\" not found in t.yml")) := by
  constructor
  · rfl
  · intro h
    rw [show loadDoc fsTypeErr 5 "/m.yml"
        = .error (.pyError "TypeError: value is not subscriptable by a string key")
        from rfl] at h
    cases h

/-- C7 amended: when every traversed level is a mapping and some segment is
absent from the mapping at its level, loading fails with the YAML error
naming the full key path and the source file; a non-mapping intermediate
value instead escapes as an uncaught type error (see the counterexample). -/
theorem missing_key_reference_error :
    ∀ (fs : List (String × RawNode)) (fuel : Nat)
      (mainPath fname key target : String)
      (doc : YamlValue) (tlog : List String),
      alookup mainPath fs = some (.fromYaml [fname, key]) →
      pathJoin (dirname mainPath) fname = target →
      loadDoc fs fuel target = .ok (doc, tlog) →
      descend doc (splitKeyPath key) = .error .keyError →
      loadDoc fs (fuel + 1) mainPath
        = .error (.yamlError ("Key \"" ++ key ++ "\" not found in " ++ fname)) := by
  intro fs fuel mainPath fname key target doc tlog hm hp hload hdesc
  unfold loadDoc
  rw [hm]
  simp only [resolveNodeF, alookup]
  rw [hp, hload]
  simp [alookup, hdesc]

/-- Witness for the amended C7: a directive whose key is absent from the
target mapping fails with the key-not-found YAML error. -/
theorem missing_key_reference_error_witness :
    loadDoc fsMissing 5 "/r.yml"
      = .error (.yamlError ("Key \"missing\" not found in t2.yml")) :=
  missing_key_reference_error fsMissing 4 "/r.yml" "t2.yml" "missing" "/t2.yml"
    (.map [("a", .str "b")]) ["/t2.yml"] rfl rfl rfl rfl

/-- C8: unknown top-level key rejection.  Construction fails with a single
`ConfigError` naming all offending keys, pluralized ("node" vs "nodes")
exactly when more than one key is unrecognized; when every top-level key is
recognized, the unrecognized-key check passes. -/
theorem unknown_topkey_rejection :
    (∀ (osEnv : List (String × String)) (data : List (String × YamlValue)),
      (data.map Prod.fst).filter (fun n => !optional_nodes.contains n) ≠ [] →
      scubaConfigInit osEnv data = .error (.configError
        (SCUBA_YML ++ ": Unrecognized node"
          ++ (if 1 < ((data.map Prod.fst).filter (fun n => !optional_nodes.contains n)).length
              then "s" else "")
          ++ ": "
          ++ joinSep ", " ((data.map Prod.fst).filter (fun n => !optional_nodes.contains n))))) ∧
    (∀ data : List (String × YamlValue),
      (data.map Prod.fst).filter (fun n => !optional_nodes.contains n) = [] →
      checkTopLevel data = .ok ()) := by
  constructor
  · intro osEnv data hne
    unfold scubaConfigInit
    rw [checkTopLevel_extra_err hne]
  · intro data he
    exact checkTopLevel_ok he

/-- Witness for C8: one offending key gives the singular message, two give
the plural message, and a fully recognized document passes the check. -/
theorem unknown_topkey_rejection_witness :
    scubaConfigInit [] [("image", .str "img"), ("foo", .int 1)]
      = .error (.configError ".scuba.yml: Unrecognized node: foo") ∧
    scubaConfigInit [] [("bar", .null), ("image", .str "img"), ("foo", .int 1)]
      = .error (.configError ".scuba.yml: Unrecognized nodes: bar, foo") ∧
    checkTopLevel [("image", .str "i"), ("shell", .str "/bin/bash")] = .ok () := by
  refine ⟨?_, ?_, ?_⟩
  · exact unknown_topkey_rejection.1 [] [("image", .str "img"), ("foo", .int 1)]
      (by decide)
  · exact unknown_topkey_rejection.1 []
      [("bar", .null), ("image", .str "img"), ("foo", .int 1)] (by decide)
  · exact unknown_topkey_rejection.2 [("image", .str "i"), ("shell", .str "/bin/bash")]
      (by decide)

/-- C9 counterexample: a mapping node whose `script` value is the empty
string is rejected by the Python truthiness test (`if not script:`) with
the missing-subkey error, whereas the claim requires every string value
`s` to normalize to `[s]`. -/
theorem script_empty_string_rejected :
    _process_script_node (.map [("script", .str "")]) "user"
      = .error (.configError "user: must have a \x27script\x27 subkey") ∧
    _process_script_node (.map [("script", .str "")]) "user" ≠ .ok [.str ""] := by
  constructor
  · rfl
  · intro h
    exact Except.noConfusion h

/-- C9 amended: script-node normalization.  A top-level string `s` becomes
`[s]`; a mapping with a non-empty string `script` value becomes a singleton;
a non-empty list value is returned as is; an absent `script` key or a falsy
value (empty string, empty list, null, false, zero) is rejected with the
missing-subkey error; a truthy non-string non-list value is rejected as
"must be a string or list"; any non-string non-mapping node is rejected as
"must be string or dict". -/
theorem script_node_shape :
    (∀ (s : String) (name : String),
      _process_script_node (.str s) name = .ok [.str s]) ∧
    (∀ (name : String) (es : List (String × YamlValue)) (s : String), s ≠ "" →
      alookup "script" es = some (.str s) →
      _process_script_node (.map es) name = .ok [.str s]) ∧
    (∀ (name : String) (es : List (String × YamlValue)) (l : List YamlValue), l ≠ [] →
      alookup "script" es = some (.seq l) →
      _process_script_node (.map es) name = .ok l) ∧
    (∀ (name : String) (es : List (String × YamlValue)),
      alookup "script" es = none →
      _process_script_node (.map es) name
        = .error (.configError (name ++ ": must have a \x27script\x27 subkey"))) ∧
    (∀ (name : String) (es : List (String × YamlValue)) (v : YamlValue),
      alookup "script" es = some v → pyTruthy v = false →
      _process_script_node (.map es) name
        = .error (.configError (name ++ ": must have a \x27script\x27 subkey"))) ∧
    (∀ (name : String) (es : List (String × YamlValue)) (v : YamlValue),
      alookup "script" es = some v → pyTruthy v = true →
      (∀ s, v ≠ .str s) → (∀ l, v ≠ .seq l) →
      _process_script_node (.map es) name
        = .error (.configError (name ++ ".script: must be a string or list"))) ∧
    (∀ (name : String) (v : YamlValue),
      (∀ s, v ≠ .str s) → (∀ es, v ≠ .map es) →
      _process_script_node v name
        = .error (.configError (name ++ ": must be string or dict"))) := by
  refine ⟨?_, ?_, ?_, ?_, ?_, ?_, ?_⟩
  · intro s name
    rfl
  · intro name es s hs hl
    simp only [_process_script_node]
    rw [hl]
    simp [str_truthy hs]
  · intro name es l hl hlk
    simp only [_process_script_node]
    rw [hlk]
    simp [seq_truthy hl]
  · intro name es hl
    simp only [_process_script_node]
    rw [hl]
  · intro name es v hl hf
    simp only [_process_script_node]
    rw [hl]
    simp [hf]
  · intro name es v hl ht hstr hseq
    simp only [_process_script_node]
    rw [hl]
    simp only [ht]
    cases v with
    | str s => exact absurd rfl (hstr s)
    | seq l => exact absurd rfl (hseq l)
    | null => rfl
    | bool b => rfl
    | int n => rfl
    | map es2 => rfl
  · intro name v hstr hmap
    cases v with
    | str s => exact absurd rfl (hstr s)
    | map es => exact absurd rfl (hmap es)
    | null => rfl
    | bool b => rfl
    | int n => rfl
    | seq l => rfl

/-- Witness for the amended C9: each branch of the normalizer at a concrete
input. -/
theorem script_node_shape_witness :
    _process_script_node (.str "echo hi") "user" = .ok [.str "echo hi"] ∧
    _process_script_node (.map [("script", .str "x")]) "user" = .ok [.str "x"] ∧
    _process_script_node (.map [("script", .seq [.str "a", .str "b"])]) "user"
      = .ok [.str "a", .str "b"] ∧
    _process_script_node (.map [("other", .null)]) "user"
      = .error (.configError "user: must have a \x27script\x27 subkey") ∧
    _process_script_node (.map [("script", .seq [])]) "user"
      = .error (.configError "user: must have a \x27script\x27 subkey") ∧
    _process_script_node (.map [("script", .int 3)]) "user"
      = .error (.configError "user.script: must be a string or list") ∧
    _process_script_node (.int 7) "user"
      = .error (.configError "user: must be string or dict") := by
  refine ⟨?_, ?_, ?_, ?_, ?_, ?_, ?_⟩
  · exact script_node_shape.1 "echo hi" "user"
  · exact script_node_shape.2.1 "user" [("script", .str "x")] "x" (by decide) rfl
  · exact script_node_shape.2.2.1 "user" [("script", .seq [.str "a", .str "b"])]
      [.str "a", .str "b"] (by intro h; cases h) rfl
  · exact script_node_shape.2.2.2.1 "user" [("other", .null)] rfl
  · exact script_node_shape.2.2.2.2.1 "user" [("script", .seq [])] (.seq []) rfl rfl
  · exact script_node_shape.2.2.2.2.2.1 "user" [("script", .int 3)] (.int 3) rfl rfl
      (by intro s h; cases h) (by intro l h; cases h)
  · exact script_node_shape.2.2.2.2.2.2 "user" (.int 7)
      (by intro s h; cases h) (by intro es h; cases h)

/-- C10: `process_command` mutates the caller's command list exactly in the
single-line-alias branch, where the alias-name token is popped, leaving the
remaining tokens; the list is returned unchanged when the first token
matches no alias and when it matches a multi-line alias. -/
theorem command_list_mutation :
    (∀ (cfg : ScubaConfig) (tok : String) (rest : List String)
       (al : ScubaAlias) (v : YamlValue) (ov sh : Option String),
      alookup tok cfg._aliases = some al → al.script = [v] →
      (process_command cfg (tok :: rest) ov sh).1 = rest) ∧
    (∀ (cfg : ScubaConfig) (tok : String) (rest : List String) (ov sh : Option String),
      alookup tok cfg._aliases = none →
      (process_command cfg (tok :: rest) ov sh).1 = tok :: rest) ∧
    (∀ (cfg : ScubaConfig) (tok : String) (rest : List String)
       (al : ScubaAlias) (ov sh : Option String),
      alookup tok cfg._aliases = some al → 1 < al.script.length →
      (process_command cfg (tok :: rest) ov sh).1 = tok :: rest) := by
  refine ⟨?_, ?_, ?_⟩
  · intro cfg tok rest al v ov sh hal hs
    unfold process_command
    rw [finishPhase_fst]
    cases v with
    | str line => rw [commandPhase_single hal hs]
    | null => rw [commandPhase_single_nonstr hal hs (by intro l h; cases h)]
    | bool b => rw [commandPhase_single_nonstr hal hs (by intro l h; cases h)]
    | int n => rw [commandPhase_single_nonstr hal hs (by intro l h; cases h)]
    | seq l => rw [commandPhase_single_nonstr hal hs (by intro l h; cases h)]
    | map es => rw [commandPhase_single_nonstr hal hs (by intro l h; cases h)]
  · intro cfg tok rest ov sh hal
    unfold process_command
    rw [finishPhase_fst, commandPhase_noalias hal]
  · intro cfg tok rest al ov sh hal hlen
    unfold process_command
    rw [finishPhase_fst]
    cases rest with
    | nil => rw [commandPhase_multi_ok hal hlen]
    | cons a as => rw [commandPhase_multi_err hal hlen (by intro h; cases h)]

/-- Witness for C10: the popped list for a single-line alias, and the
unchanged list for the no-match and multi-line cases. -/
theorem command_list_mutation_witness :
    (process_command cfgC ["snap", "extra"] none none).1 = ["extra"] ∧
    (process_command cfgC ["other", "x"] none none).1 = ["other", "x"] ∧
    (process_command cfgM ["m", "x"] none none).1 = ["m", "x"] := by
  refine ⟨?_, ?_, ?_⟩
  · exact command_list_mutation.1 cfgC "snap" ["extra"] alC (.str "crackle pop")
      none none rfl rfl
  · exact command_list_mutation.2.1 cfgC "other" ["x"] none none rfl
  · exact command_list_mutation.2.2 cfgM "m" ["x"] alMulti none none rfl (by decide)

end Scuba
